import Mathlib

/-!
Verification development for the TorchTrade simulation kernel
(components/trade.py, components/market.py, components/broker.py,
components/clock.py).

Modelling conventions:
* timestamps are integers (the pandas Timestamp total order and its
  lattice arithmetic `since + k * timedelta` are all that the kernel uses);
* prices and money amounts are rationals (exact arithmetic);
* a Python method that mutates `self` becomes a function `State -> State`
  (or `State × Except PyErr α` when the method can raise after mutating);
* `None` becomes `Option.none`.
-/

/-- Python exception values that the modelled methods can raise.
`pastEndError` stands for the `ValueError("Current time has passed the end
timestamp.")` object that `Market.next` / `Clock.next` construct: the source
builds the object but never raises it, so no modelled method returns it. -/
inductive PyErr where
  | notPreparedError : PyErr
  | keyError : PyErr
  | endAfterRangeError : PyErr
  | startBeforeRangeError : PyErr
  | rollbackTooLargeError : PyErr
  | attributeError : PyErr
  | pastEndError : PyErr
deriving DecidableEq, Repr

/-- TradeDirection enum from trade.py: LONG = 1, SHORT = -1. -/
inductive TradeDirection where
  | LONG : TradeDirection
  | SHORT : TradeDirection
deriving DecidableEq, Repr

/-- Numeric value of the TradeDirection enum member. -/
def TradeDirection.value : TradeDirection → ℤ
  | .LONG => 1
  | .SHORT => -1

/-- TradeStatus enum from trade.py. -/
inductive TradeStatus where
  | CREATED : TradeStatus
  | FILLED : TradeStatus
  | REJECTED : TradeStatus
  | CLOSED : TradeStatus
deriving DecidableEq, Repr

/-- One single-timestamp row of market data for the traded symbol, as
extracted by `Trade.__process_data` from the broadcast DataFrame: the
timestamp, the isTraded flag and the open, high, low, close prices.
The field names follow the local variables of `Trade.update`. -/
structure Slice where
  timestamp : ℤ
  is_traded : Bool
  open_price : ℚ
  high_price : ℚ
  low_price : ℚ
  close_price : ℚ
deriving DecidableEq, Repr

/-- Mutable state of a Trade object (trade.py).  Fields keep the Python
attribute names.  Prices that start as `None` are `Option ℚ`. -/
structure Trade where
  id : String
  symbol : String
  direction : TradeDirection
  quantity : ℚ
  leverage : ℚ
  stop_loss : Option ℚ
  risk_reward : Option ℚ
  discount : ℚ
  commission : ℚ
  status : TradeStatus
  creation_timestamp : ℤ
  execution_timestamp : ℤ
  close_timestamp : Option ℤ
  last_update_timestamp : ℤ
  fill_price : Option ℚ
  stop_loss_price : Option ℚ
  take_profit_price : Option ℚ
  close_price : Option ℚ
  time_in_trade : ℕ
  paid_commission : ℚ
  unrealized_pnl : ℚ
  realized_pnl : ℚ
  unrealized_pnl_percentage : ℚ
  realized_pnl_percentage : ℚ
  unrealized_pnl_percentage_discounted : ℚ
  realized_pnl_percentage_discounted : ℚ
deriving DecidableEq, Repr

/-- Trade.__init__: builds a fresh trade in status CREATED with zeroed
metrics; `execution_timestamp` defaults to `creation_timestamp` when the
caller passes `None`. -/
def Trade.init (id : String) (creation_timestamp : ℤ) (symbol : String)
    (direction : TradeDirection) (quantity leverage : ℚ)
    (execution_timestamp : Option ℤ) (stop_loss risk_reward : Option ℚ)
    (discount commission : ℚ) : Trade :=
  { id := id
    symbol := symbol
    direction := direction
    quantity := quantity
    leverage := leverage
    stop_loss := stop_loss
    risk_reward := risk_reward
    discount := discount
    commission := commission
    status := TradeStatus.CREATED
    creation_timestamp := creation_timestamp
    execution_timestamp := execution_timestamp.getD creation_timestamp
    close_timestamp := none
    last_update_timestamp := creation_timestamp
    fill_price := none
    stop_loss_price := none
    take_profit_price := none
    close_price := none
    time_in_trade := 0
    paid_commission := 0
    unrealized_pnl := 0
    realized_pnl := 0
    unrealized_pnl_percentage := 0
    realized_pnl_percentage := 0
    unrealized_pnl_percentage_discounted := 0
    realized_pnl_percentage_discounted := 0 }

/-- Trade.__update_metrics: increment time_in_trade, recompute the
unrealized P&L, its percentage and the discounted percentage.  The source
reads `self.fill_price`, which is always set once the trade is FILLED; the
`getD 0` default is never exercised on states reachable from `update`. -/
def Trade.update_metrics (t : Trade) (price : ℚ) : Trade :=
  let time_in_trade := t.time_in_trade + 1
  let unrealized_pnl :=
    (t.direction.value : ℚ) *
      ((t.quantity * price) - (t.quantity * t.fill_price.getD 0))
  let unrealized_pnl_percentage :=
    unrealized_pnl / (t.quantity * t.fill_price.getD 0)
  { t with
    time_in_trade := time_in_trade
    unrealized_pnl := unrealized_pnl
    unrealized_pnl_percentage := unrealized_pnl_percentage
    unrealized_pnl_percentage_discounted :=
      unrealized_pnl_percentage * t.discount ^ time_in_trade }

/-- Trade.__reject_trade: set status to REJECTED. -/
def Trade.reject_trade (t : Trade) : Trade :=
  { t with status := TradeStatus.REJECTED }

/-- Trade.__fill_trade: record the fill price, derive the stop-loss and
take-profit prices, set status FILLED, charge the entry commission and debit
it from realized_pnl.  The source guard raising ValueError when status is
not CREATED is unreachable from `update`, which calls this under the
CREATED branch only.  Note the source subtracts the updated total
`self.paid_commission`, not the entry commission alone. -/
def Trade.fill_trade (t : Trade) (fill_price : ℚ) : Trade :=
  let stop_loss_price :=
    match t.stop_loss with
    | some sl => some (fill_price * (1 - (t.direction.value : ℚ) * sl))
    | none => none
  let take_profit_price :=
    match t.stop_loss, t.risk_reward with
    | some sl, some rr =>
        some (fill_price * (1 + (t.direction.value : ℚ) * rr * sl))
    | _, _ => none
  let paid_commission :=
    t.paid_commission + fill_price * t.quantity * t.commission
  { t with
    fill_price := some fill_price
    stop_loss_price := stop_loss_price
    take_profit_price := take_profit_price
    status := TradeStatus.FILLED
    paid_commission := paid_commission
    realized_pnl := t.realized_pnl - paid_commission }

/-- Trade.__has_stop_loss: the stop_loss percentage is set. -/
def Trade.has_stop_loss (t : Trade) : Bool :=
  t.stop_loss.isSome

/-- Trade.__is_stop_loss_hit: LONG stops when low reaches the stop-loss
price, SHORT when high reaches it.  `stop_loss_price` is always set when
this is called (the trade is FILLED with a stop loss). -/
def Trade.is_stop_loss_hit (t : Trade) (high_price low_price : ℚ) : Bool :=
  match t.direction with
  | .LONG => decide (low_price ≤ t.stop_loss_price.getD 0)
  | .SHORT => decide (high_price ≥ t.stop_loss_price.getD 0)

/-- Trade.__has_take_profit: the take_profit_price is set. -/
def Trade.has_take_profit (t : Trade) : Bool :=
  t.take_profit_price.isSome

/-- Trade.__is_take_profit_hit: LONG takes profit when high reaches the
take-profit price, SHORT when low reaches it. -/
def Trade.is_take_profit_hit (t : Trade) (high_price low_price : ℚ) : Bool :=
  match t.direction with
  | .LONG => decide (high_price ≥ t.take_profit_price.getD 0)
  | .SHORT => decide (low_price ≤ t.take_profit_price.getD 0)

/-- Trade.__close_trade: record close price and timestamp, set status
CLOSED, charge the exit commission, finalize realized P&L and zero the
unrealized fields.  The source has no guard: calling it on an already
CLOSED trade charges a second exit commission and overwrites close_price. -/
def Trade.close_trade (t : Trade) (timestamp : ℤ) (price : ℚ) : Trade :=
  let realized_pnl :=
    t.realized_pnl - price * t.quantity * t.commission +
      (t.direction.value : ℚ) *
        ((t.quantity * price) - (t.quantity * t.fill_price.getD 0))
  let realized_pnl_percentage :=
    realized_pnl / (t.quantity * t.fill_price.getD 0)
  { t with
    close_price := some price
    close_timestamp := some timestamp
    status := TradeStatus.CLOSED
    paid_commission := t.paid_commission + price * t.quantity * t.commission
    realized_pnl := realized_pnl
    realized_pnl_percentage := realized_pnl_percentage
    realized_pnl_percentage_discounted :=
      realized_pnl_percentage * t.discount ^ t.time_in_trade
    unrealized_pnl := 0
    unrealized_pnl_percentage := 0
    unrealized_pnl_percentage_discounted := 0 }

/-- Trade.update: the per-broadcast transition of the trade state machine.
Terminal trades return unchanged; gap candles (is_traded false) are
ignored; a CREATED trade fills at its execution timestamp or is rejected
past it; a FILLED trade refreshes metrics and then runs the stop-loss
check and the take-profit check as two independent if statements, exactly
as in the source (no elif, no status guard between them). -/
def Trade.update (t : Trade) (md : Slice) : Trade :=
  if t.status = TradeStatus.CLOSED ∨ t.status = TradeStatus.REJECTED then t
  else
    -- __process_data: extract timestamp, is_traded and OHLC for the symbol
    if !md.is_traded then t
    else
      let t := { t with last_update_timestamp := md.timestamp }
      if t.status = TradeStatus.CREATED then
        if md.timestamp = t.execution_timestamp then
          t.fill_trade md.close_price
        else if md.timestamp > t.execution_timestamp then
          t.reject_trade
        else t
      else
        let t := t.update_metrics md.close_price
        let t :=
          if t.has_stop_loss &&
              t.is_stop_loss_hit md.high_price md.low_price then
            t.close_trade md.timestamp (t.stop_loss_price.getD 0)
          else t
        let t :=
          if t.has_take_profit &&
              t.is_take_profit_hit md.high_price md.low_price then
            t.close_trade md.timestamp (t.take_profit_price.getD 0)
          else t
        t

/-- Mutable state of a Market object (market.py) after `prepare` has been
modelled: `prepared` is the private `__prepared` flag, `timedelta` the
private `__timedelta` interval, `since` and `until` the minimum and maximum
timestamps of the fetched data, `dataAt` the per-timestamp slice of the
prepared dataset for the traded symbol.  The dataset key set is modelled by
`Market.hasDataAt` below.  The source attribute `until` is rendered as
`until_ts` because `until` is a reserved word in Lean. -/
structure Market where
  prepared : Bool
  since : ℤ
  until_ts : ℤ
  timedelta : ℤ
  timestamp : ℤ
  observers : List Trade
  dataAt : ℤ → Slice
  last_market_data : Slice

/-- Timestamps at which the prepared dataset has a row.  `prepare` sets
`since` and `until` to the minimum and maximum data timestamps; we model a
gapless dataset whose keys are exactly the lattice points
`since + k * timedelta` inside `[since, until]`. -/
def Market.hasDataAt (m : Market) (ts : ℤ) : Bool :=
  decide (m.since ≤ ts) && decide (ts ≤ m.until_ts) &&
    decide ((ts - m.since) % m.timedelta = 0)

/-- Number of points of `pd.date_range(start=since, end=until,
freq=timedelta)`, for `since ≤ until` and a positive interval. -/
def Market.timestampsCount (m : Market) : ℕ :=
  ((m.until_ts - m.since) / m.timedelta).toNat + 1

/-- Market.__update_mktData: `self.last_market_data = self.data.loc[index]`;
the `loc` lookup raises a KeyError when the current timestamp has no row in
the prepared data. -/
def Market.update_mktData (m : Market) : Market × Except PyErr Unit :=
  if m.hasDataAt m.timestamp then
    ({ m with last_market_data := m.dataAt m.timestamp }, Except.ok ())
  else
    (m, Except.error PyErr.keyError)

/-- Market.__notify_observers: first rebuild the observer list keeping only
trades whose status is not CLOSED and not REJECTED, then call `update` with
`last_market_data` on each remaining observer, in list order.  The Python
loop mutates each trade object in place, so after the loop the observer
list holds exactly the updated trades. -/
def Market.notify_observers (m : Market) : Market :=
  let observers := m.observers.filter fun observer =>
    !(decide (observer.status = TradeStatus.CLOSED ∨
        observer.status = TradeStatus.REJECTED))
  { m with
    observers := observers.map fun observer =>
      observer.update m.last_market_data }

/-- Market.get_market_data: models the two range checks on the requested
window `[timestamp - rollback_periods * timedelta, timestamp]`; the window
itself (rows of the dataset between the two bounds) carries no information
the verified claims depend on, so the success value is `Unit`. -/
def Market.get_market_data (m : Market) (timestamp : ℤ)
    (rollback_periods : ℕ) : Except PyErr Unit :=
  let end_timestamp := timestamp
  let start_timestamp := end_timestamp - (rollback_periods : ℤ) * m.timedelta
  if end_timestamp > m.until_ts then Except.error PyErr.endAfterRangeError
  else if start_timestamp < m.since then Except.error PyErr.startBeforeRangeError
  else Except.ok ()

/-- Market.next: after the preparation check, the source computes
`next_timestamp = timestamp + timedelta` and, when it exceeds `until`,
builds `ValueError("Current time has passed the end timestamp.")` WITHOUT
raising it (the `raise` keyword is missing), so control falls through and
the timestamp assignment happens unconditionally.  Then `__update_mktData`
(which can raise KeyError past the data end), `__notify_observers` and
`get_market_data` run in that order.  The returned pair is the post state
together with the normal result or the raised exception. -/
def Market.next (m : Market) (rollback_periods : ℕ) : Market × Except PyErr ℤ :=
  if !m.prepared then (m, Except.error PyErr.notPreparedError)
  else
    let next_timestamp := m.timestamp + m.timedelta
    -- unraised: if next_timestamp > m.until_ts then PyErr.pastEndError
    let m1 := { m with timestamp := next_timestamp }
    match m1.update_mktData with
    | (m2, Except.error e) => (m2, Except.error e)
    | (m2, Except.ok _) =>
        let m3 := m2.notify_observers
        match m3.get_market_data next_timestamp rollback_periods with
        | Except.error e => (m3, Except.error e)
        | Except.ok _ => (m3, Except.ok next_timestamp)

/-- Market.reset with `random=False` (the only branch the verified claims
exercise): after the preparation check and the rollback bound check against
the `pd.date_range` length, sets the timestamp to
`since + rollback_periods * timedelta`, clears the observer list, refreshes
the market data and returns the new timestamp with the data window. -/
def Market.reset (m : Market) (rollback_periods : ℕ) : Market × Except PyErr ℤ :=
  if !m.prepared then (m, Except.error PyErr.notPreparedError)
  else if rollback_periods ≥ m.timestampsCount then
    (m, Except.error PyErr.rollbackTooLargeError)
  else
    let m1 := { m with
      timestamp := m.since + (rollback_periods : ℤ) * m.timedelta,
      observers := [] }
    match m1.update_mktData with
    | (m2, Except.error e) => (m2, Except.error e)
    | (m2, Except.ok _) =>
        match m2.get_market_data m2.timestamp rollback_periods with
        | Except.error e => (m2, Except.error e)
        | Except.ok _ => (m2, Except.ok m2.timestamp)

/-- Market.register_observer: append the observer, then push the current
slice to it (`observer.update(self.last_market_data)` mutates the appended
trade in place). -/
def Market.register_observer (m : Market) (observer : Trade) :
    Market × Except PyErr Unit :=
  if !m.prepared then (m, Except.error PyErr.notPreparedError)
  else
    ({ m with observers := m.observers ++ [observer.update m.last_market_data] },
      Except.ok ())

/-- Iterated Market.next (ignoring the per-call window argument and the
returned value, as a driver loop does). -/
def Market.nextN (m : Market) : ℕ → Market
  | 0 => m
  | n + 1 => ((m.nextN n).next 0).1

/-- State of a Clock object (clock.py). -/
structure Clock where
  start_timestamp : ℤ
  end_timestamp : ℤ
  timestamp : ℤ
  timeframe : ℤ

/-- Clock.next: computes `next_timestamp = timestamp + timeframe`; when it
exceeds `end_timestamp` the source builds a ValueError WITHOUT raising it,
so the clock advances unconditionally, notifies its observers and returns
the new time normally.  Observer notification carries no trade state (clock
observers receive only the timestamp), so it is not modelled further. -/
def Clock.next (c : Clock) : Clock × ℤ :=
  let next_timestamp := c.timestamp + c.timeframe
  -- unraised: if next_timestamp > c.end_timestamp then PyErr.pastEndError
  let c1 := { c with timestamp := next_timestamp }
  (c1, next_timestamp)

/-- Instance attribute names that Market objects carry: every name assigned
to `self` in `Market.__init__` and `Market.prepare`, with Python name
mangling applied to the double-underscore names (`self.__timedelta` is
stored as `_Market__timedelta`, `self.__prepared` as `_Market__prepared`).
No assignment ever creates a public `timedelta` attribute. -/
def Market.instanceAttrNames : List String :=
  ["symbols", "timeframe", "_Market__timedelta", "include_technical_indicators",
   "_Market__prepared", "data", "last_market_data", "since", "until",
   "timestamp", "observers"]

/-- State of a Broker object (broker.py); `commision` keeps the source
spelling of the attribute. -/
structure Broker where
  trades : List Trade
  market : Market
  commision : ℚ

/-- Broker.openTrade: the constructor call reads `self.market.timedelta` as
its seventh positional argument (the Trade execution_timestamp slot).
Market instances expose only the attributes in `Market.instanceAttrNames`,
so the lookup raises AttributeError before any Trade is built.  The then
branch models what the source would do were the attribute present: the
looked-up value is the candle interval, passed positionally as the
execution timestamp, after which the trade registers with the market and
is appended to the trade list. -/
def Broker.openTrade (b : Broker) (id symbol : String)
    (direction : TradeDirection) (quantity leverage : ℚ)
    (stop_loss risk_reward : Option ℚ) : Except PyErr Broker :=
  if "timedelta" ∈ Market.instanceAttrNames then
    let trade := Trade.init id b.market.timestamp symbol direction quantity
      leverage (some b.market.timedelta) stop_loss risk_reward (9/10) b.commision
    let reg := b.market.register_observer trade
    Except.ok { b with market := reg.1, trades := b.trades ++ [trade] }
  else
    Except.error PyErr.attributeError

/-- Broker.closed_trades_count: number of trades whose status is CLOSED. -/
def Broker.closed_trades_count (b : Broker) : ℕ :=
  (b.trades.filter fun trade => decide (trade.status = TradeStatus.CLOSED)).length

/-- Broker.winning_trades_count: number of CLOSED trades with positive
realized P&L. -/
def Broker.winning_trades_count (b : Broker) : ℕ :=
  (b.trades.filter fun trade =>
    decide (trade.status = TradeStatus.CLOSED ∧ trade.realized_pnl > 0)).length

/-- Broker.reset: discard the trade list. -/
def Broker.reset (b : Broker) : Broker :=
  { b with trades := [] }

/-- Win Rate entry of Broker.info, modulo the percent string formatting:
`winning_trades_count / closed_trades_count` when at least one trade is
closed, `None` otherwise. -/
def Broker.win_rate (b : Broker) : Option ℚ :=
  if b.closed_trades_count > 0 then
    some ((b.winning_trades_count : ℚ) / (b.closed_trades_count : ℚ))
  else
    none

/-! Concrete objects used by the witnesses and counterexamples below. -/

/-- A trivial candle slice used as market data filler. -/
def sliceZero : Slice := ⟨0, true, 1, 1, 1, 1⟩

/-- A CLOSED trade with positive realized P&L. -/
def tClosedWin : Trade :=
  { id := "w", symbol := "BTC", direction := TradeDirection.LONG, quantity := 1,
    leverage := 1, stop_loss := none, risk_reward := none, discount := 9/10,
    commission := 0, status := TradeStatus.CLOSED, creation_timestamp := 0,
    execution_timestamp := 0, close_timestamp := some 1,
    last_update_timestamp := 1, fill_price := some 100, stop_loss_price := none,
    take_profit_price := none, close_price := some 110, time_in_trade := 1,
    paid_commission := 0, unrealized_pnl := 0, realized_pnl := 10,
    unrealized_pnl_percentage := 0, realized_pnl_percentage := 1/10,
    unrealized_pnl_percentage_discounted := 0,
    realized_pnl_percentage_discounted := 9/100 }

/-- A FILLED trade with no stop loss and no take profit price. -/
def tFilledNoStop : Trade :=
  { id := "f", symbol := "BTC", direction := TradeDirection.LONG, quantity := 1,
    leverage := 1, stop_loss := none, risk_reward := none, discount := 9/10,
    commission := 0, status := TradeStatus.FILLED, creation_timestamp := 0,
    execution_timestamp := 0, close_timestamp := none,
    last_update_timestamp := 0, fill_price := some 100, stop_loss_price := none,
    take_profit_price := none, close_price := none, time_in_trade := 0,
    paid_commission := 0, unrealized_pnl := 0, realized_pnl := 0,
    unrealized_pnl_percentage := 0, realized_pnl_percentage := 0,
    unrealized_pnl_percentage_discounted := 0,
    realized_pnl_percentage_discounted := 0 }

/-- A slice at timestamp 1 with some price movement. -/
def sliceOne : Slice := ⟨1, true, 100, 105, 95, 102⟩

/-- C6: a trade whose status is CLOSED or REJECTED is left completely
unchanged by Trade.update, over any sequence of update calls: once a trade
reaches a terminal status, no further state mutation occurs. -/
theorem trade_terminal_update_noop (t : Trade) (mds : List Slice)
    (h : t.status = TradeStatus.CLOSED ∨ t.status = TradeStatus.REJECTED) :
    List.foldl Trade.update t mds = t := by
  induction mds with
  | nil => rfl
  | cons md rest ih =>
      have hu : t.update md = t := by
        unfold Trade.update
        rw [if_pos h]
      simpa [List.foldl, hu] using ih

/-- Witness for C6: a concrete CLOSED trade is untouched by two further
updates. -/
theorem trade_terminal_update_noop_witness :
    (tClosedWin.status = TradeStatus.CLOSED ∨
      tClosedWin.status = TradeStatus.REJECTED) ∧
    List.foldl Trade.update tClosedWin [sliceZero, sliceOne] = tClosedWin :=
  ⟨Or.inl rfl,
    trade_terminal_update_noop tClosedWin [sliceZero, sliceOne] (Or.inl rfl)⟩

/-- C7: every Broker.openTrade call fails with an AttributeError, because
the seventh positional Trade argument reads `market.timedelta`, an
attribute Market instances never define: the interval is stored only under
the name-mangled `_Market__timedelta`. -/
theorem broker_openTrade_attribute_error (b : Broker) (id symbol : String)
    (direction : TradeDirection) (quantity leverage : ℚ)
    (stop_loss risk_reward : Option ℚ) :
    b.openTrade id symbol direction quantity leverage stop_loss risk_reward
        = Except.error PyErr.attributeError ∧
    "timedelta" ∉ Market.instanceAttrNames ∧
    "_Market__timedelta" ∈ Market.instanceAttrNames := by
  refine ⟨?_, by decide, by decide⟩
  unfold Broker.openTrade
  rw [if_neg (by decide)]

/-- C8: after Broker.reset the closed-trade count is 0 and the win rate is
None rather than a division error; in general the win rate is
winning/closed exactly when at least one trade is closed, and None exactly
when none is. -/
theorem broker_win_rate_spec (b : Broker) :
    (Broker.reset b).closed_trades_count = 0 ∧
    (Broker.reset b).win_rate = none ∧
    (0 < b.closed_trades_count →
      b.win_rate =
        some ((b.winning_trades_count : ℚ) / (b.closed_trades_count : ℚ))) ∧
    (b.win_rate = none ↔ b.closed_trades_count = 0) := by
  have hreset : (Broker.reset b).closed_trades_count = 0 := by
    simp [Broker.reset, Broker.closed_trades_count]
  refine ⟨hreset, ?_, ?_, ?_⟩
  · simp [Broker.win_rate, hreset]
  · intro h
    simp [Broker.win_rate, h]
  · constructor
    · intro h
      by_contra hne
      have hpos : 0 < b.closed_trades_count := Nat.pos_of_ne_zero hne
      simp [Broker.win_rate, hpos] at h
    · intro h
      simp [Broker.win_rate, h]

/-- A broker holding one closed winning trade, for the C8 witness. -/
def bOneWin : Broker :=
  ⟨[tClosedWin], ⟨true, 0, 10, 1, 0, [], fun _ => sliceZero, sliceZero⟩, 0⟩

/-- Witness for C8: on a broker with one closed winning trade the closed
count is positive and the win rate is the quotient; after reset the closed
count is 0 and the win rate is None. -/
theorem broker_win_rate_spec_witness :
    0 < bOneWin.closed_trades_count ∧
    bOneWin.win_rate =
      some ((bOneWin.winning_trades_count : ℚ) /
        (bOneWin.closed_trades_count : ℚ)) ∧
    (Broker.reset bOneWin).closed_trades_count = 0 ∧
    (Broker.reset bOneWin).win_rate = none :=
  ⟨by decide, (broker_win_rate_spec bOneWin).2.2.1 (by decide),
    (broker_win_rate_spec bOneWin).1, (broker_win_rate_spec bOneWin).2.1⟩

/-- C4: a CREATED trade receiving a traded slice fills at the close price
when the slice timestamp equals its execution timestamp, deriving the
stop-loss price from the fill price exactly when stop_loss is set and the
take-profit price exactly when both stop_loss and risk_reward are set; a
strictly later traded slice rejects it with no commission or P&L impact. -/
theorem trade_created_fill_or_reject (t : Trade) (md : Slice)
    (hst : t.status = TradeStatus.CREATED) (htr : md.is_traded = true) :
    (md.timestamp = t.execution_timestamp →
      (t.update md).status = TradeStatus.FILLED ∧
      (t.update md).fill_price = some md.close_price ∧
      (t.update md).stop_loss_price =
        t.stop_loss.map (fun sl =>
          md.close_price * (1 - (t.direction.value : ℚ) * sl)) ∧
      (t.update md).take_profit_price =
        (match t.stop_loss, t.risk_reward with
         | some sl, some rr =>
             some (md.close_price * (1 + (t.direction.value : ℚ) * rr * sl))
         | _, _ => none)) ∧
    (md.timestamp > t.execution_timestamp →
      (t.update md).status = TradeStatus.REJECTED ∧
      (t.update md).paid_commission = t.paid_commission ∧
      (t.update md).realized_pnl = t.realized_pnl ∧
      (t.update md).unrealized_pnl = t.unrealized_pnl) := by
  constructor
  · intro he
    rcases hsl : t.stop_loss with _ | sl <;>
      rcases hrr : t.risk_reward with _ | rr <;>
        simp [Trade.update, Trade.fill_trade, hst, htr, he, hsl, hrr]
  · intro hgt
    have hne : ¬ md.timestamp = t.execution_timestamp := by omega
    simp [Trade.update, Trade.reject_trade, hst, htr, hne, hgt]

/-- A CREATED LONG trade with stop loss 10 percent and risk reward 2, used
by several witnesses. -/
def tCreated : Trade :=
  Trade.init "c" 0 "BTC" TradeDirection.LONG 1 1 none (some (1/10)) (some 2)
    (9/10) (1/100)

/-- A traded slice at timestamp 0 with close 100. -/
def sliceFill : Slice := ⟨0, true, 100, 100, 100, 100⟩

/-- Witness for C4: the concrete CREATED trade fills on the slice whose
timestamp matches its execution timestamp. -/
theorem trade_created_fill_or_reject_witness :
    (tCreated.status = TradeStatus.CREATED ∧ sliceFill.is_traded = true ∧
      sliceFill.timestamp = tCreated.execution_timestamp) ∧
    (tCreated.update sliceFill).status = TradeStatus.FILLED ∧
    (tCreated.update sliceFill).fill_price = some sliceFill.close_price ∧
    (tCreated.update sliceFill).stop_loss_price =
      tCreated.stop_loss.map (fun sl =>
        sliceFill.close_price * (1 - (tCreated.direction.value : ℚ) * sl)) ∧
    (tCreated.update sliceFill).take_profit_price =
      (match tCreated.stop_loss, tCreated.risk_reward with
       | some sl, some rr =>
           some (sliceFill.close_price *
             (1 + (tCreated.direction.value : ℚ) * rr * sl))
       | _, _ => none) :=
  ⟨⟨rfl, rfl, rfl⟩,
    (trade_created_fill_or_reject tCreated sliceFill rfl rfl).1 rfl⟩

/-- C3: the entry commission fill_price * quantity * commission is added to
paid_commission and debited from realized_pnl at fill time, while the
position is still open; for quantity 1, commission 0.01, fill 100 and a
single close at 110 the final figures are paid_commission 2.1 and
realized_pnl 7.9. -/
theorem trade_commission_accounting (t : Trade) (p : ℚ) (ts : ℤ) :
    (t.paid_commission = 0 →
      (t.fill_trade p).paid_commission = p * t.quantity * t.commission ∧
      (t.fill_trade p).realized_pnl =
        t.realized_pnl - p * t.quantity * t.commission ∧
      (t.fill_trade p).status = TradeStatus.FILLED) ∧
    (t.quantity = 1 → t.commission = 1/100 → t.paid_commission = 0 →
      t.realized_pnl = 0 → t.direction = TradeDirection.LONG →
      ((t.fill_trade 100).close_trade ts 110).paid_commission = 21/10 ∧
      ((t.fill_trade 100).close_trade ts 110).realized_pnl = 79/10) := by
  constructor
  · intro h0
    simp [Trade.fill_trade, h0]
  · intro hq hc hp0 hr0 hdir
    simp [Trade.fill_trade, Trade.close_trade, hq, hc, hp0, hr0, hdir,
      TradeDirection.value]
    norm_num

/-- A fresh CREATED LONG trade with quantity 1 and commission 0.01. -/
def tCommission : Trade :=
  Trade.init "k" 0 "BTC" TradeDirection.LONG 1 1 none none none (9/10) (1/100)

/-- Witness for C3: the commission arithmetic evaluated on the concrete
quantity-1, commission-0.01 trade filled at 100 and closed at 110. -/
theorem trade_commission_accounting_witness :
    ((tCommission.fill_trade 100).paid_commission =
        100 * tCommission.quantity * tCommission.commission ∧
      (tCommission.fill_trade 100).realized_pnl =
        tCommission.realized_pnl -
          100 * tCommission.quantity * tCommission.commission ∧
      (tCommission.fill_trade 100).status = TradeStatus.FILLED) ∧
    ((tCommission.fill_trade 100).close_trade 1 110).paid_commission = 21/10 ∧
    ((tCommission.fill_trade 100).close_trade 1 110).realized_pnl = 79/10 :=
  ⟨(trade_commission_accounting tCommission 100 1).1 rfl,
    (trade_commission_accounting tCommission 100 1).2 rfl rfl rfl rfl rfl⟩

set_option linter.unnecessarySeqFocus false in
/-- Updating a trade that has no stop loss and no take-profit price leaves
both unset, keeps FILLED trades FILLED and never produces a CLOSED trade
from a non-CLOSED one. -/
theorem trade_update_no_exit (t : Trade) (md : Slice)
    (h1 : t.stop_loss = none) (h2 : t.take_profit_price = none) :
    (t.update md).stop_loss = none ∧ (t.update md).take_profit_price = none ∧
    (t.status = TradeStatus.FILLED → (t.update md).status = TradeStatus.FILLED) ∧
    ((t.update md).status = TradeStatus.CLOSED →
      t.status = TradeStatus.CLOSED) := by
  rcases hst : t.status <;>
    rcases htr : md.is_traded <;>
      simp [Trade.update, Trade.fill_trade, Trade.reject_trade,
        Trade.update_metrics, Trade.has_stop_loss, Trade.has_take_profit,
        hst, htr, h1, h2] <;>
    (split_ifs <;> simp_all [Trade.fill_trade, Trade.reject_trade])

/-- C10: a trade whose stop_loss is None and whose take_profit_price is
unset can never reach CLOSED through Trade.update, and once FILLED it stays
FILLED through every further update: it has no exit mechanism. -/
theorem trade_no_stop_loss_never_closes (t : Trade) (mds : List Slice)
    (h1 : t.stop_loss = none) (h2 : t.take_profit_price = none) :
    (t.status = TradeStatus.FILLED →
      (List.foldl Trade.update t mds).status = TradeStatus.FILLED) ∧
    ((List.foldl Trade.update t mds).status = TradeStatus.CLOSED →
      t.status = TradeStatus.CLOSED) := by
  induction mds generalizing t with
  | nil => simp
  | cons md rest ih =>
      have h := trade_update_no_exit t md h1 h2
      have hrest := ih (t.update md) h.1 h.2.1
      exact ⟨fun hf => by
          simpa [List.foldl] using hrest.1 (h.2.2.1 hf),
        fun hc => h.2.2.2 (hrest.2 (by simpa [List.foldl] using hc))⟩

/-- Witness for C10: the concrete FILLED trade without stop loss stays
FILLED across two further updates. -/
theorem trade_no_stop_loss_never_closes_witness :
    (tFilledNoStop.stop_loss = none ∧
      tFilledNoStop.take_profit_price = none ∧
      tFilledNoStop.status = TradeStatus.FILLED) ∧
    (List.foldl Trade.update tFilledNoStop [sliceOne, sliceZero]).status =
      TradeStatus.FILLED :=
  ⟨⟨rfl, rfl, rfl⟩,
    (trade_no_stop_loss_never_closes tFilledNoStop [sliceOne, sliceZero]
      rfl rfl).1 rfl⟩

/-- C5: during a Market.next broadcast on a prepared market whose advanced
timestamp has data, the observers notified are exactly those non-terminal
at the start of the broadcast: the list is filtered of CLOSED and REJECTED
trades before any update is delivered, and each survivor receives exactly
one update, in registration order, with the slice at the new timestamp. -/
theorem market_broadcast_skips_terminal (m : Market) (r : ℕ)
    (hp : m.prepared = true)
    (hd : m.hasDataAt (m.timestamp + m.timedelta) = true) :
    ((m.next r).1).observers =
      (m.observers.filter fun t =>
          !(decide (t.status = TradeStatus.CLOSED ∨
              t.status = TradeStatus.REJECTED))).map
        (fun t => t.update (m.dataAt (m.timestamp + m.timedelta))) ∧
    ∀ t ∈ m.observers.filter fun t =>
        !(decide (t.status = TradeStatus.CLOSED ∨
            t.status = TradeStatus.REJECTED)),
      t.status ≠ TradeStatus.CLOSED ∧ t.status ≠ TradeStatus.REJECTED := by
  constructor
  · simp only [Market.hasDataAt] at hd
    simp only [Market.next, hp, Bool.not_true, Bool.false_eq_true, if_false,
      Market.update_mktData, Market.hasDataAt, Market.notify_observers]
    simp only [hd, if_true]
    split <;> simp
  · intro t ht
    rw [List.mem_filter] at ht
    have := ht.2
    simp only [Bool.not_eq_eq_eq_not, Bool.not_true, decide_eq_false_iff_not,
      not_or] at this
    exact ⟨this.1, this.2⟩

/-- A prepared market carrying one terminal and one live observer. -/
def mTwoObs : Market :=
  ⟨true, 0, 10, 1, 0, [tClosedWin, tFilledNoStop], fun _ => sliceZero, sliceZero⟩

/-- Witness for C5: on the concrete market the broadcast updates exactly
the filtered observer list. -/
theorem market_broadcast_skips_terminal_witness :
    (mTwoObs.prepared = true ∧
      mTwoObs.hasDataAt (mTwoObs.timestamp + mTwoObs.timedelta) = true) ∧
    ((mTwoObs.next 0).1).observers =
      (mTwoObs.observers.filter fun t =>
          !(decide (t.status = TradeStatus.CLOSED ∨
              t.status = TradeStatus.REJECTED))).map
        (fun t => t.update (mTwoObs.dataAt (mTwoObs.timestamp + mTwoObs.timedelta))) ∧
    ∀ t ∈ mTwoObs.observers.filter fun t =>
        !(decide (t.status = TradeStatus.CLOSED ∨
            t.status = TradeStatus.REJECTED)),
      t.status ≠ TradeStatus.CLOSED ∧ t.status ≠ TradeStatus.REJECTED :=
  ⟨⟨rfl, by decide⟩,
    market_broadcast_skips_terminal mTwoObs 0 rfl (by decide)⟩

/-- A prepared market standing at the last data timestamp. -/
def mAtEnd : Market := ⟨true, 0, 2, 1, 2, [], fun _ => sliceZero, sliceZero⟩

/-- A clock standing at its end timestamp. -/
def cAtEnd : Clock := ⟨0, 2, 2, 1⟩

/-- C2: calling next() at the data end does NOT raise an OutOfRange error
and DOES advance the timestamp past the end: the market moves from 2 to 3
with until 2 and then fails with a KeyError from the data lookup (the
ValueError guard in the source is constructed but never raised), while the
clock advances from 2 to 3 past end 2 and returns normally, breaking the
start ≤ current ≤ end invariant. -/
theorem market_next_past_end_advances :
    ((mAtEnd.next 0).1).timestamp = 3 ∧ mAtEnd.until_ts = 2 ∧
    (mAtEnd.next 0).2 = Except.error PyErr.keyError ∧
    ((cAtEnd.next).1).timestamp = 3 ∧ (cAtEnd.next).2 = 3 ∧
    cAtEnd.end_timestamp = 2 :=
  ⟨rfl, rfl, rfl, rfl, rfl, rfl⟩

/-- Market.__update_mktData changes only last_market_data (or nothing, when
the lookup fails). -/
theorem market_update_mktData_eq (m m2 : Market) (res : Except PyErr Unit)
    (h : m.update_mktData = (m2, res)) :
    m2.timestamp = m.timestamp ∧ m2.prepared = m.prepared ∧
    m2.since = m.since ∧ m2.timedelta = m.timedelta ∧
    m2.until_ts = m.until_ts ∧ m2.observers = m.observers := by
  unfold Market.update_mktData at h
  split at h <;> injection h with h1 h2 <;> subst h1 <;> simp

/-- Market.next always moves the timestamp forward by exactly one interval
on a prepared market (even when a later step raises), and preserves the
preparation flag, the time range and the interval. -/
theorem market_next_preserves (m : Market) (r : ℕ) (hp : m.prepared = true) :
    ((m.next r).1).timestamp = m.timestamp + m.timedelta ∧
    ((m.next r).1).prepared = true ∧
    ((m.next r).1).since = m.since ∧
    ((m.next r).1).timedelta = m.timedelta := by
  refine ⟨?_, ?_, ?_, ?_⟩ <;>
    (simp only [Market.next, hp, Bool.not_true, Bool.false_eq_true, if_false]
     split <;> rename_i m2 hrest heq)
  case _ e =>
    have h := market_update_mktData_eq _ _ _ heq
    simpa using h.1
  case _ a =>
    have h := market_update_mktData_eq _ _ _ heq
    split <;> simpa [Market.notify_observers] using h.1
  case _ e =>
    have h := market_update_mktData_eq _ _ _ heq
    simpa [hp] using h.2.1
  case _ a =>
    have h := market_update_mktData_eq _ _ _ heq
    split <;> simpa [Market.notify_observers, hp] using h.2.1
  case _ e =>
    have h := market_update_mktData_eq _ _ _ heq
    simpa using h.2.2.1
  case _ a =>
    have h := market_update_mktData_eq _ _ _ heq
    split <;> simpa [Market.notify_observers] using h.2.2.1
  case _ e =>
    have h := market_update_mktData_eq _ _ _ heq
    simpa using h.2.2.2.1
  case _ a =>
    have h := market_update_mktData_eq _ _ _ heq
    split <;> simpa [Market.notify_observers] using h.2.2.2.1

/-- Market.reset (with random=False) puts the timestamp at
since + rollback_periods * timedelta and preserves the preparation flag,
the time range and the interval. -/
theorem market_reset_state (m : Market) (k : ℕ) (hp : m.prepared = true)
    (hk : k < m.timestampsCount) :
    ((m.reset k).1).timestamp = m.since + (k : ℤ) * m.timedelta ∧
    ((m.reset k).1).prepared = true ∧
    ((m.reset k).1).since = m.since ∧
    ((m.reset k).1).timedelta = m.timedelta := by
  refine ⟨?_, ?_, ?_, ?_⟩ <;>
    (simp only [Market.reset, hp, Bool.not_true, Bool.false_eq_true, if_false]
     rw [if_neg (by omega)]
     split <;> rename_i m2 hrest heq)
  case _ e =>
    have h := market_update_mktData_eq _ _ _ heq
    simpa using h.1
  case _ a =>
    have h := market_update_mktData_eq _ _ _ heq
    split <;> simpa using h.1
  case _ e =>
    have h := market_update_mktData_eq _ _ _ heq
    simpa [hp] using h.2.1
  case _ a =>
    have h := market_update_mktData_eq _ _ _ heq
    split <;> simpa [hp] using h.2.1
  case _ e =>
    have h := market_update_mktData_eq _ _ _ heq
    simpa using h.2.2.1
  case _ a =>
    have h := market_update_mktData_eq _ _ _ heq
    split <;> simpa using h.2.2.1
  case _ e =>
    have h := market_update_mktData_eq _ _ _ heq
    simpa using h.2.2.2.1
  case _ a =>
    have h := market_update_mktData_eq _ _ _ heq
    split <;> simpa using h.2.2.2.1

/-- Iterating Market.next n times adds exactly n intervals to the
timestamp of a prepared market. -/
theorem market_nextN_state (m : Market) (n : ℕ) (hp : m.prepared = true) :
    ((m.nextN n)).timestamp = m.timestamp + (n : ℤ) * m.timedelta ∧
    (m.nextN n).prepared = true ∧
    (m.nextN n).since = m.since ∧
    (m.nextN n).timedelta = m.timedelta := by
  induction n with
  | zero => simp [Market.nextN, hp]
  | succ k ih =>
      have h := market_next_preserves (m.nextN k) 0 ih.2.1
      refine ⟨?_, ?_, ?_, ?_⟩
      · rw [show m.nextN (k + 1) = ((m.nextN k).next 0).1 from rfl, h.1,
          ih.1, ih.2.2.2]
        push_cast
        ring
      · exact h.2.1
      · rw [show m.nextN (k + 1) = ((m.nextN k).next 0).1 from rfl, h.2.2.1,
          ih.2.2.1]
      · rw [show m.nextN (k + 1) = ((m.nextN k).next 0).1 from rfl, h.2.2.2,
          ih.2.2.2]

/-- A prepared market over the lattice 0..10 with interval 1, standing at
its start. -/
def mRound : Market := ⟨true, 0, 10, 1, 0, [], fun _ => sliceZero, sliceZero⟩

/-- Counterexample for C9 as frozen: reset(rollback_periods=1) followed by
one next() lands on timestamp 2, while reset(rollback_periods=0) offset by
one interval is timestamp 1 — the two sides differ, because reset(k)
already starts at since + k * interval. -/
theorem market_reset_roundtrip_counterexample :
    ((((mRound.reset 1).1).nextN 1)).timestamp = 2 ∧
    ((mRound.reset 0).1).timestamp + (1 : ℤ) * mRound.timedelta = 1 ∧
    ((((mRound.reset 1).1).nextN 1)).timestamp ≠
      ((mRound.reset 0).1).timestamp + (1 : ℤ) * mRound.timedelta :=
  ⟨rfl, rfl, by decide⟩

/-- C9 (amended): reset(rollback_periods=k) puts the timestamp at
since + k * interval, which equals the reset(0) timestamp offset by k
intervals; each subsequent next() adds exactly one interval, so k calls
after reset(k) land on since + 2k intervals — all arithmetic stays exactly
on the since + n * interval lattice with no drift. -/
theorem market_reset_next_lattice (m : Market) (k n : ℕ)
    (hp : m.prepared = true) (hk : k < m.timestampsCount) :
    ((m.reset k).1).timestamp = m.since + (k : ℤ) * m.timedelta ∧
    (((m.reset k).1).nextN n).timestamp =
      m.since + ((k : ℤ) + (n : ℤ)) * m.timedelta ∧
    ((m.reset k).1).timestamp =
      ((m.reset 0).1).timestamp + (k : ℤ) * m.timedelta := by
  have h := market_reset_state m k hp hk
  have h0 := market_reset_state m 0 hp (Nat.succ_pos _)
  have hN := market_nextN_state ((m.reset k).1) n h.2.1
  refine ⟨h.1, ?_, ?_⟩
  · rw [hN.1, h.1, h.2.2.2]
    ring
  · rw [h.1, h0.1]
    ring

/-- Witness for C9 (amended): evaluated on the concrete market with k = 2
and n = 3. -/
theorem market_reset_next_lattice_witness :
    (mRound.prepared = true ∧ 2 < mRound.timestampsCount) ∧
    ((mRound.reset 2).1).timestamp =
      mRound.since + (2 : ℤ) * mRound.timedelta ∧
    (((mRound.reset 2).1).nextN 3).timestamp =
      mRound.since + ((2 : ℤ) + (3 : ℤ)) * mRound.timedelta ∧
    ((mRound.reset 2).1).timestamp =
      ((mRound.reset 0).1).timestamp + (2 : ℤ) * mRound.timedelta :=
  ⟨⟨rfl, by decide⟩,
    market_reset_next_lattice mRound 2 3 rfl (by decide)⟩

/-- A traded candle at timestamp 1 whose low 80 reaches the stop-loss
price 90 and whose high 130 reaches the take-profit price 120: both exit
conditions hold on the same candle. -/
def sliceBothHit : Slice := ⟨1, true, 100, 130, 80, 100⟩

/-- The state of tCreated after filling on sliceFill: FILLED at 100 with
stop-loss price 90 and take-profit price 120. -/
def tFilledBoth : Trade :=
  { id := "c", symbol := "BTC", direction := TradeDirection.LONG, quantity := 1,
    leverage := 1, stop_loss := some (1/10), risk_reward := some 2,
    discount := 9/10, commission := 1/100, status := TradeStatus.FILLED,
    creation_timestamp := 0, execution_timestamp := 0, close_timestamp := none,
    last_update_timestamp := 0, fill_price := some 100,
    stop_loss_price := some 90, take_profit_price := some 120,
    close_price := none, time_in_trade := 0, paid_commission := 1,
    unrealized_pnl := 0, realized_pnl := -1, unrealized_pnl_percentage := 0,
    realized_pnl_percentage := 0, unrealized_pnl_percentage_discounted := 0,
    realized_pnl_percentage_discounted := 0 }

/-- The state of tFilledBoth after the both-hit candle: the stop-loss
branch closes at 90, then the unguarded take-profit branch closes AGAIN at
120, overwriting close_price and charging a second exit commission. -/
def tDoubleClosed : Trade :=
  { id := "c", symbol := "BTC", direction := TradeDirection.LONG, quantity := 1,
    leverage := 1, stop_loss := some (1/10), risk_reward := some 2,
    discount := 9/10, commission := 1/100, status := TradeStatus.CLOSED,
    creation_timestamp := 0, execution_timestamp := 0,
    close_timestamp := some 1, last_update_timestamp := 1,
    fill_price := some 100, stop_loss_price := some 90,
    take_profit_price := some 120, close_price := some 120,
    time_in_trade := 1, paid_commission := 31/10, unrealized_pnl := 0,
    realized_pnl := 69/10, unrealized_pnl_percentage := 0,
    realized_pnl_percentage := 69/1000,
    unrealized_pnl_percentage_discounted := 0,
    realized_pnl_percentage_discounted := 621/10000 }

/-- C1: on a FILLED trade whose stop-loss (90) and take-profit (120) are
both hit by the same traded candle, Trade.update does NOT close at the
stop-loss price with a single exit commission: the two unguarded if
branches each call close, so the final close_price is the take-profit
price 120 (not 90) and paid_commission is 3.1 = entry 1 + exit-at-90 0.9 +
exit-at-120 1.2, i.e. two exit commissions were charged. -/
theorem trade_both_hit_closes_twice :
    (tCreated.update sliceFill = tFilledBoth ∧
      tFilledBoth.is_stop_loss_hit sliceBothHit.high_price
        sliceBothHit.low_price = true ∧
      tFilledBoth.is_take_profit_hit sliceBothHit.high_price
        sliceBothHit.low_price = true) ∧
    ((tCreated.update sliceFill).update sliceBothHit).status =
      TradeStatus.CLOSED ∧
    ((tCreated.update sliceFill).update sliceBothHit).stop_loss_price =
      some 90 ∧
    ((tCreated.update sliceFill).update sliceBothHit).close_price =
      some 120 ∧
    ((tCreated.update sliceFill).update sliceBothHit).paid_commission =
      31/10 ∧
    ((tCreated.update sliceFill).update sliceBothHit).realized_pnl =
      69/10 := by
  have h1 : tCreated.update sliceFill = tFilledBoth := by
    simp only [tCreated, sliceFill, tFilledBoth, Trade.update, Trade.init,
      Trade.fill_trade, Trade.update_metrics, Trade.reject_trade,
      Trade.has_stop_loss, Trade.is_stop_loss_hit, Trade.has_take_profit,
      Trade.is_take_profit_hit, TradeDirection.value]
    norm_num
    decide
  have h2 : tFilledBoth.update sliceBothHit = tDoubleClosed := by
    simp only [tFilledBoth, sliceBothHit, tDoubleClosed, Trade.update,
      Trade.fill_trade, Trade.update_metrics, Trade.reject_trade,
      Trade.close_trade, Trade.has_stop_loss, Trade.is_stop_loss_hit,
      Trade.has_take_profit, Trade.is_take_profit_hit, TradeDirection.value]
    norm_num
    simp
  have hsl : tFilledBoth.is_stop_loss_hit sliceBothHit.high_price
      sliceBothHit.low_price = true := by
    simp only [tFilledBoth, sliceBothHit, Trade.is_stop_loss_hit,
      decide_eq_true_eq]
    norm_num
  have htp : tFilledBoth.is_take_profit_hit sliceBothHit.high_price
      sliceBothHit.low_price = true := by
    simp only [tFilledBoth, sliceBothHit, Trade.is_take_profit_hit,
      decide_eq_true_eq]
    norm_num
  rw [h1, h2]
  exact ⟨⟨rfl, hsl, htp⟩, rfl, rfl, rfl, rfl, rfl⟩

/-- Witness for C7: the attribute error on a concrete broker and call. -/
theorem broker_openTrade_attribute_error_witness :
    bOneWin.openTrade "x" "BTC" TradeDirection.LONG 1 1 none none
        = Except.error PyErr.attributeError ∧
    "timedelta" ∉ Market.instanceAttrNames ∧
    "_Market__timedelta" ∈ Market.instanceAttrNames :=
  broker_openTrade_attribute_error bOneWin "x" "BTC" TradeDirection.LONG 1 1
    none none
